import Mathlib

/-!
Verification of the RAG serving backend ("Cache-Me-If-You-Can").

Shallow embedding of the core operations of the repository:
the API-gateway replica selection and load accounting
(services/api_gateway/app.py), the RL agent's reward and
epsilon schedule (services/rl_agent/agent.py), the RL service's
state collection and training endpoint (services/rl_agent/app.py),
the retriever's prompt composition
(services/retriever_service/worker.py), and the LLM generator's
job validation (services/llm_generator/worker.py).

Integer-valued Redis counters are modelled as Int, real-valued
quantities (latencies, rewards, epsilon) as Rat, Redis stores as
functions from key strings to optional values, and fallible or
optional JSON fields as Option.
-/

/- ---------------------------------------------------------------
   services/api_gateway/app.py
   --------------------------------------------------------------- -/

/-- The fixed list of generator replicas (module constant LLM_REPLICAS). -/
def LLM_REPLICAS : List String :=
  ["http://llm_generator_1:8000",
   "http://llm_generator_2:8000",
   "http://llm_generator_3:8000"]

/-- The Redis key the gateway uses for a replica's load counter:
the string interpolation in get_least_loaded_replica and
process_rag_query. -/
def gateway_load_key (replica_url : String) : String :=
  "llm:load:" ++ replica_url

/-- The scan of get_least_loaded_replica: running index, best index so
far and running minimum (none models the initial float infinity, which
every first load compares below). -/
def leastLoadedAux : List Int → Nat → Nat → Option Int → Nat
  | [], _, bestIdx, _ => bestIdx
  | load :: rest, idx, bestIdx, minLoad =>
    match minLoad with
    | none => leastLoadedAux rest (idx + 1) idx (some load)
    | some m =>
      if load < m then leastLoadedAux rest (idx + 1) idx (some load)
      else leastLoadedAux rest (idx + 1) bestIdx (some m)

/-- get_least_loaded_replica: index of the replica with minimum load,
scanning loads in order with a strict comparison (ties keep the
earlier index). -/
def get_least_loaded_replica (loads : List Int) : Nat :=
  leastLoadedAux loads 0 0 none

/-- The replica selection actually performed by process_rag_query:
it calls get_least_loaded_replica directly and never contacts the RL
policy service, so the policy's answer (if any) is ignored. -/
def gateway_select (_policyResult : Option Nat) (loads : List Int) : Nat :=
  get_least_loaded_replica loads

/-- Follows the spec's words, for comparison with gateway_select:
consult the RL policy for a replica index; on any error (none), fall
back to the least-loaded heuristic. -/
def select_spec (policyResult : Option Nat) (loads : List Int) : Nat :=
  match policyResult with
  | some a => a
  | none => get_least_loaded_replica loads

/-- A completion record as the gateway reads it from
job:completion:<job_id> (the fields process_rag_query consults). -/
structure CompletionRecord where
  success : Option Bool
  error : Option String
  response : Option String

/-- Outcome of the gateway's polling loop: no record before the
deadline, a record whose value failed JSON parsing (kept as the raw
string), or a parsed record. -/
inductive PollOutcome
  | timeout
  | unparsed (raw : String)
  | parsed (rec : CompletionRecord)

/-- The gateway's answer to the client: an HTTPException with status
and detail, or a 200 with the answer string. -/
inductive QueryResult
  | httpError (status : Nat) (detail : String)
  | ok (answer : String)
deriving DecidableEq

/-- Observable effect of one process_rag_query call on the chosen
replica's load counter, plus the HTTP result. -/
structure GatewayRun where
  counter : Int
  incrCount : Nat
  decrCount : Nat
  result : QueryResult
deriving DecidableEq

/-- process_rag_query, after replica selection, as a function of the
chosen counter's prior value, whether the lpush to job:encoder_in
succeeds, and the outcome of polling the completion key.  Mirrors the
code: incr; on enqueue failure decr and raise 503; otherwise poll and,
in the finally block, decr and floor the counter to 0 if negative;
then 504 on timeout, 500 with the record's error when the record's
success field reads false (missing success defaults to True), else
200 with the record's response (missing response defaults to "", an
unparseable record becomes {response: raw}). -/
def process_rag_query (c0 : Int) (enqueueOk : Bool) (po : PollOutcome) :
    GatewayRun :=
  let c1 := c0 + 1
  if !enqueueOk then
    { counter := c1 - 1, incrCount := 1, decrCount := 1,
      result := .httpError 503 "Failed to publish job" }
  else
    let c2 := c1 - 1
    let c3 := if c2 < 0 then 0 else c2
    let res :=
      match po with
      | .timeout => QueryResult.httpError 504 "Job timed out before completion"
      | .unparsed raw => QueryResult.ok raw
      | .parsed rec =>
        if rec.success.getD true = false then
          QueryResult.httpError 500 (rec.error.getD "LLM generation failed")
        else
          QueryResult.ok (rec.response.getD "")
    { counter := c3, incrCount := 1, decrCount := 1, result := res }

/-- Follows the spec's words, for comparison with the result computed
by process_rag_query: UPSTREAM_UNAVAILABLE 503 when the enqueue fails,
TIMEOUT 504 when no completion record appears within the deadline,
GENERATION_FAILED 500 with the provider message when the completion
record has success explicitly false, otherwise the answer. -/
def response_spec (enqueueOk : Bool) (po : PollOutcome) : QueryResult :=
  if !enqueueOk then .httpError 503 "Failed to publish job"
  else
    match po with
    | .timeout => .httpError 504 "Job timed out before completion"
    | .unparsed raw => .ok raw
    | .parsed rec =>
      if rec.success = some false then
        .httpError 500 (rec.error.getD "LLM generation failed")
      else
        .ok (rec.response.getD "")

/- ---------------------------------------------------------------
   services/rl_agent/app.py : state collection
   --------------------------------------------------------------- -/

/-- The Redis key get_current_state reads for replica i's load. -/
def rl_state_load_key (i : Nat) : String :=
  "llm_load_" ++ toString i

/-- The load value get_current_state puts into the state vector for
replica i: the value stored under rl_state_load_key i, defaulting to
0 when the key is absent. -/
def rl_state_load (store : String → Option Int) (i : Nat) : Int :=
  (store (rl_state_load_key i)).getD 0

/- ---------------------------------------------------------------
   services/rl_agent/agent.py : reward
   --------------------------------------------------------------- -/

/-- Population variance as computed by numpy's np.var: mean of squared
deviations from the mean (division by zero yields 0 in Rat, used only
where the code guards the length). -/
def npVar (xs : List ℚ) : ℚ :=
  let n : ℚ := xs.length
  let mean := xs.sum / n
  (xs.map fun x => (x - mean) ^ 2).sum / n

/-- calculate_reward from agent.py: -10 on failure; otherwise
(1 - min(latency_ms/1000, 1)) plus a load-balance bonus of
-0.1 * variance(replica_loads), the bonus applied only when there is
more than one replica load. -/
def calculate_reward (latency_ms : ℚ) (success : Bool) (replica_loads : List ℚ) : ℚ :=
  if !success then -10
  else
    let normalized_latency := min (latency_ms / 1000) 1
    let latency_reward := 1 - normalized_latency
    let load_balance_bonus :=
      if 1 < replica_loads.length then -(1/10) * npVar replica_loads else 0
    latency_reward + load_balance_bonus

/-- Follows the spec's words, for comparison with calculate_reward:
if success then (1 - min(latency_ms/1000, 1)) - 0.1 * variance of the
replica-load vector, else -10. -/
def reward_spec (latency_ms : ℚ) (success : Bool) (replica_loads : List ℚ) : ℚ :=
  if success then (1 - min (latency_ms / 1000) 1) + -(1/10) * npVar replica_loads
  else -10

/- ---------------------------------------------------------------
   services/rl_agent/agent.py + app.py : epsilon schedule
   --------------------------------------------------------------- -/

/-- RLAgent constructor default epsilon_start. -/
def epsilon_start : ℚ := 1

/-- RLAgent constructor default epsilon_end. -/
def epsilon_end : ℚ := 1/100

/-- RLAgent constructor default epsilon_decay. -/
def epsilon_decay : ℚ := 995/1000

/-- Operations of the RL service that touch the agent's epsilon:
a call to RLAgent.train with a full enough replay buffer (which
decays epsilon), a call to RLAgent.train that returns None because
the buffer is smaller than the batch (epsilon unchanged), and the
POST /reset_epsilon endpoint, which assigns the requested value. -/
inductive EpsOp
  | trainSuccess
  | trainSkipped
  | resetEpsilon (x : ℚ)

/-- Whether an operation is a training call (not a reset). -/
def EpsOp.isTrain : EpsOp → Bool
  | .trainSuccess => true
  | .trainSkipped => true
  | .resetEpsilon _ => false

/-- Effect of one operation on epsilon.  A successful training step
runs self.epsilon = max(self.epsilon_end, self.epsilon * self.epsilon_decay). -/
def applyEpsOp (e : ℚ) : EpsOp → ℚ
  | .trainSuccess => max epsilon_end (e * epsilon_decay)
  | .trainSkipped => e
  | .resetEpsilon x => x

/-- Epsilon after a sequence of operations, starting from
epsilon_start = 1.0 as in the RLAgent constructor. -/
def epsAfter (ops : List EpsOp) : ℚ :=
  ops.foldl applyEpsOp epsilon_start

/- ---------------------------------------------------------------
   services/rl_agent/app.py : /train endpoint and target sync
   --------------------------------------------------------------- -/

/-- Abstraction of the agent's network and counter state: policyV and
targetV are version numbers for the parameter vectors (the optimizer
step of RLAgent.train changes the policy parameters, so each
successful step bumps policyV), steps is steps_done, syncCount counts
calls to update_target_network, bufferLen the replay buffer length
(training does not consume experiences). -/
structure AgentNet where
  steps : Nat
  policyV : Nat
  targetV : Nat
  syncCount : Nat
  bufferLen : Nat
deriving DecidableEq

/-- One RLAgent.train call: a no-op returning None when the buffer
holds fewer than batch experiences, otherwise one optimizer step on
the policy parameters and steps_done += 1. -/
def trainStepNet (batch : Nat) (s : AgentNet) : AgentNet :=
  if s.bufferLen < batch then s
  else { s with policyV := s.policyV + 1, steps := s.steps + 1 }

/-- The iterations loop of the /train endpoint. -/
def trainLoop (batch : Nat) : Nat → AgentNet → AgentNet
  | 0, s => s
  | n + 1, s => trainLoop batch n (trainStepNet batch s)

/-- RLAgent.update_target_network: copy the policy parameters into
the target network. -/
def update_target_network (s : AgentNet) : AgentNet :=
  { s with targetV := s.policyV, syncCount := s.syncCount + 1 }

/-- The /train endpoint (train_agent in app.py): run the requested
number of training iterations, then, if steps_done is a multiple of
100, copy the policy weights into the target network.  (The
checkpoint save at multiples of 500 does not change any parameter.) -/
def train_agent (s : AgentNet) (batch iterations : Nat) : AgentNet :=
  let s1 := trainLoop batch iterations s
  if s1.steps % 100 = 0 then update_target_network s1 else s1

/-- Initial agent state: steps_done 0 and target initialized from the
policy parameters (the constructor loads policy's state dict into
target), with a replay buffer already holding 1000 experiences. -/
def agent0 : AgentNet :=
  { steps := 0, policyV := 0, targetV := 0, syncCount := 0, bufferLen := 1000 }

/- ---------------------------------------------------------------
   services/retriever_service/worker.py : prompt composition
   --------------------------------------------------------------- -/

/-- build_augmented_prompt from the retriever worker: the bare query
when there are no contexts, otherwise the fixed instruction preamble,
the contexts each rendered "[i+1] ctx" and joined by blank lines, the
question and the answer cue, exactly as the Python f-string lays them
out. -/
def build_augmented_prompt (query : String) (contexts : List String) : String :=
  if contexts.isEmpty then query
  else
    let context_str := String.intercalate "\n\n"
      (contexts.enum.map fun p => "[" ++ toString (p.1 + 1) ++ "] " ++ p.2)
    "You are a helpful assistant. Use the following context to answer the question.\n\nContext:\n"
      ++ context_str ++ "\n\nQuestion: " ++ query ++ "\n\nAnswer:"

/-- Rank-ordered contexts rendered "[n] text", numbering from n. -/
def numberedFrom : Nat → List String → List String
  | _, [] => []
  | n, c :: cs => ("[" ++ toString n ++ "] " ++ c) :: numberedFrom (n + 1) cs

/-- Follows the spec's words, for comparison with
build_augmented_prompt: a fixed instruction preamble, then each
context as "[i] text" numbered from 1 in rank order, then Question:
with the original query, then Answer:; with zero contexts the bare
query. -/
def prompt_spec (query : String) (contexts : List String) : String :=
  match contexts with
  | [] => query
  | _ =>
    "You are a helpful assistant. Use the following context to answer the question.\n\nContext:\n"
      ++ String.intercalate "\n\n" (numberedFrom 1 contexts)
      ++ "\n\nQuestion: " ++ query ++ "\n\nAnswer:"

/- ---------------------------------------------------------------
   services/llm_generator/worker.py : job validation
   --------------------------------------------------------------- -/

/-- The fields of a job popped from job:llm_in that worker_loop
consults; none models an absent JSON field. -/
structure LlmJob where
  job_id : Option String
  augmented_prompt : Option String
  prompt : Option String
  text : Option String
deriving DecidableEq

/-- Python truthiness of job.get(field): false for an absent field
(None) and for an empty string. -/
def truthyStr : Option String → Bool
  | none => false
  | some s => !s.isEmpty

/-- Python's `a or b` on two optional strings: a if truthy, else b. -/
def pyOr (a b : Option String) : Option String :=
  if truthyStr a then a else b

/-- The prompt the worker computes:
job.get("augmented_prompt") or job.get("prompt") or job.get("text"). -/
def promptOf (j : LlmJob) : Option String :=
  pyOr j.augmented_prompt (pyOr j.prompt j.text)

/-- The worker's drop test: `if not job_id or not prompt: continue`. -/
def worker_drop (j : LlmJob) : Bool :=
  !truthyStr j.job_id || !truthyStr (promptOf j)

/-- One iteration of the generator worker on a job: none when the job
is dropped, otherwise the completion record (success flag and
response-or-error) the LLM call produces for the computed prompt;
generate_response always returns a record, so a kept job always gets
a completion. -/
def process_llm_job (j : LlmJob) (llm : String → Bool × String) :
    Option (Bool × String) :=
  if worker_drop j then none
  else some (llm ((promptOf j).getD ""))

/-- An optional string holding a nonempty value (a present, truthy
JSON field). -/
def notBlank (o : Option String) : Prop :=
  ∃ s, o = some s ∧ s ≠ ""

/-- The drop condition as the claim states it: job_id missing, or all
of augmented_prompt, prompt and text missing. -/
def dropClaim (j : LlmJob) : Prop :=
  j.job_id = none ∨
    (j.augmented_prompt = none ∧ j.prompt = none ∧ j.text = none)

/- ---------------------------------------------------------------
   Theorems
   --------------------------------------------------------------- -/

/-- C1 counterexample: with the policy service up and returning
replica 2 and loads [0, 1, 2], the spec's selection rule dispatches to
replica 2, but process_rag_query dispatches to replica 0: the gateway
code never consults the policy, so the claimed policy-first ordering
is false at this input. -/
theorem C1_counterexample :
    gateway_select (some 2) [0, 1, 2] = 0 ∧ select_spec (some 2) [0, 1, 2] = 2 := by
  constructor <;> rfl

/-- C1 (amended): the ingress always selects via the least-loaded
heuristic, ignoring any policy answer; the heuristic picks an index
bearing the minimum load and breaks ties by lowest index. -/
theorem C1_always_least_loaded (l0 l1 l2 : Int) (p : Option Nat) :
    gateway_select p [l0, l1, l2] = get_least_loaded_replica [l0, l1, l2] ∧
    get_least_loaded_replica [l0, l1, l2] < 3 ∧
    [l0, l1, l2].getD (get_least_loaded_replica [l0, l1, l2]) 0 ≤ l0 ∧
    [l0, l1, l2].getD (get_least_loaded_replica [l0, l1, l2]) 0 ≤ l1 ∧
    [l0, l1, l2].getD (get_least_loaded_replica [l0, l1, l2]) 0 ≤ l2 ∧
    (l0 = [l0, l1, l2].getD (get_least_loaded_replica [l0, l1, l2]) 0 →
      get_least_loaded_replica [l0, l1, l2] = 0) ∧
    (l1 = [l0, l1, l2].getD (get_least_loaded_replica [l0, l1, l2]) 0 →
      get_least_loaded_replica [l0, l1, l2] ≤ 1) := by
  refine ⟨rfl, ?_⟩
  simp only [get_least_loaded_replica, leastLoadedAux]
  split_ifs <;> simp_all [List.getD] <;> omega

/-- C1 witness: the amended theorem at concrete loads. -/
theorem C1_always_least_loaded_witness :
    (5 : Int) = [5, 5, 7].getD (get_least_loaded_replica [5, 5, 7]) 0 →
      get_least_loaded_replica [5, 5, 7] = 0 :=
  (C1_always_least_loaded 5 5 7 none).2.2.2.2.2.1

/-- C2: on every exit path of process_rag_query (enqueue failure,
timeout, generation failure, success) the chosen replica's counter is
incremented exactly once and decremented exactly once, and starting
from a nonnegative counter it never remains negative. -/
theorem C2_load_counter_balance (c0 : Int) (enqueueOk : Bool) (po : PollOutcome)
    (h : 0 ≤ c0) :
    (process_rag_query c0 enqueueOk po).incrCount = 1 ∧
    (process_rag_query c0 enqueueOk po).decrCount = 1 ∧
    0 ≤ (process_rag_query c0 enqueueOk po).counter ∧
    (process_rag_query c0 true po).counter = max 0 c0 := by
  cases enqueueOk <;> cases po <;> simp [process_rag_query] <;> omega

/-- C2 witness: the theorem at counter 0, successful enqueue, timeout. -/
theorem C2_load_counter_balance_witness :
    (process_rag_query 0 true .timeout).incrCount = 1 ∧
    (process_rag_query 0 true .timeout).decrCount = 1 ∧
    0 ≤ (process_rag_query 0 true .timeout).counter ∧
    (process_rag_query 0 true .timeout).counter = max 0 0 :=
  C2_load_counter_balance 0 true .timeout (by decide)

/-- C5: the gateway's HTTP result matches the spec's taxonomy — 503
after decrementing when the enqueue fails (counter back to its prior
value), 504 on timeout, 500 with the provider error message when the
record has success explicitly false, otherwise 200 with the answer. -/
theorem C5_error_taxonomy (c0 : Int) (enqueueOk : Bool) (po : PollOutcome) :
    (process_rag_query c0 enqueueOk po).result = response_spec enqueueOk po ∧
    (process_rag_query c0 false po).counter = c0 := by
  constructor
  · cases enqueueOk <;> cases po <;>
      simp only [process_rag_query, response_spec, Bool.not_true, Bool.not_false,
        if_true, if_false, Bool.false_eq_true, Bool.true_eq_false, ite_true, ite_false]
    case true.parsed rec =>
      obtain ⟨s, err, resp⟩ := rec
      cases s with
      | none => simp
      | some b => cases b <;> simp
  · simp [process_rag_query]

/-- C9: a parsed completion record with no success field is treated
as a success (200 with the response field, empty string if absent),
and an unparseable completion value is returned verbatim as the
answer with status 200. -/
theorem C9_lenient_completion (c0 : Int) (err resp : Option String) (raw : String) :
    (process_rag_query c0 true (.parsed ⟨none, err, resp⟩)).result =
      .ok (resp.getD "") ∧
    (process_rag_query c0 true (.unparsed raw)).result = .ok raw := by
  constructor <;> simp [process_rag_query]

/-- C3 counterexample: a successful experience with latency 1000 ms
and replica loads [0, 20] also yields reward -10, so reward -10 does
not imply success=false: the "only if" direction of the claim fails. -/
theorem C3_counterexample : calculate_reward 1000 true [0, 20] = -10 := by
  norm_num [calculate_reward, npVar]

/-- C3 (amended): reward is -10 whenever success=false, and on
success the reward equals (1 - min(latency_ms/1000, 1)) minus 0.1
times the variance of the (nonempty) replica-load vector; a success
reward can itself reach -10. -/
theorem C3_reward_formula (lat : ℚ) (success : Bool) (loads : List ℚ)
    (h : loads ≠ []) :
    calculate_reward lat success loads = reward_spec lat success loads := by
  cases success with
  | false => simp [calculate_reward, reward_spec]
  | true =>
    match loads, h with
    | [a], _ => norm_num [calculate_reward, reward_spec, npVar]
    | a :: b :: rest, _ =>
      simp [calculate_reward, reward_spec]

/-- C3 witness: the amended theorem at a failing experience. -/
theorem C3_reward_formula_witness :
    calculate_reward 1000 false [0, 20] = reward_spec 1000 false [0, 20] :=
  C3_reward_formula 1000 false [0, 20] (by simp)

/-- C4: the gateway accounts load under llm:load:<replica-url> while
the RL service's get_current_state reads llm_load_<i> — disjoint keys
for every replica — so a store holding only the gateway's counters
(here replica 0's counter at 7) yields 0 for the RL state's load. -/
theorem C4_key_divergence :
    gateway_load_key (LLM_REPLICAS.getD 0 "") ≠ rl_state_load_key 0 ∧
    gateway_load_key (LLM_REPLICAS.getD 1 "") ≠ rl_state_load_key 1 ∧
    gateway_load_key (LLM_REPLICAS.getD 2 "") ≠ rl_state_load_key 2 ∧
    rl_state_load
      (fun k => if k = gateway_load_key (LLM_REPLICAS.getD 0 "") then some 7 else none)
      0 = 0 := by
  refine ⟨?_, ?_, ?_, ?_⟩ <;> decide

/-- C6 counterexample: a successful training step followed by
POST /reset_epsilon with 1.0 strictly increases epsilon, so epsilon
is not monotonically non-increasing over the service's operations;
and a reset to 0.001 takes epsilon below the floor 0.01. -/
theorem C6_counterexample :
    epsAfter [.trainSuccess] < epsAfter [.trainSuccess, .resetEpsilon 1] ∧
    epsAfter [.trainSuccess, .resetEpsilon (1/1000)] < epsilon_end := by
  constructor <;>
    norm_num [epsAfter, applyEpsOp, epsilon_start, epsilon_end, epsilon_decay,
      List.foldl, max_lt_iff]

/-- Bounds on epsilon along a reset-free operation sequence: it stays
at least epsilon_end (if it starts there) and never increases. -/
theorem epsFoldl_bounds (ops : List EpsOp) (h : ∀ op ∈ ops, op.isTrain = true) :
    ∀ e : ℚ, epsilon_end ≤ e →
      epsilon_end ≤ ops.foldl applyEpsOp e ∧ ops.foldl applyEpsOp e ≤ e := by
  induction ops with
  | nil => exact fun e he => ⟨he, le_refl e⟩
  | cons op rest ih =>
    intro e he
    have hop : op.isTrain = true := h op (List.mem_cons_self _ _)
    have hrest : ∀ o ∈ rest, o.isTrain = true :=
      fun o ho => h o (List.mem_cons_of_mem _ ho)
    cases op with
    | trainSuccess =>
      have h0 : (0 : ℚ) ≤ e := le_trans (by norm_num [epsilon_end]) he
      have h1 : epsilon_end ≤ applyEpsOp e .trainSuccess := le_max_left _ _
      have h2 : applyEpsOp e .trainSuccess ≤ e :=
        max_le he (mul_le_of_le_one_right h0 (by norm_num [epsilon_decay]))
      obtain ⟨b1, b2⟩ := ih hrest (applyEpsOp e .trainSuccess) h1
      exact ⟨b1, le_trans b2 h2⟩
    | trainSkipped =>
      simpa [applyEpsOp] using ih hrest e he
    | resetEpsilon x => exact absurd hop (by simp [EpsOp.isTrain])

/-- C6 (amended): epsilon starts at 1.0; along training operations
alone (no reset_epsilon) it stays within [0.01, 1.0] and never
increases; a successful training step multiplies it by 0.995 with
floor 0.01, strictly decreasing exactly when epsilon exceeds the
floor; a skipped training step leaves it unchanged. -/
theorem C6_epsilon_schedule (ops : List EpsOp) (h : ∀ op ∈ ops, op.isTrain = true) :
    epsilon_start = 1 ∧
    epsilon_end ≤ epsAfter ops ∧
    epsAfter ops ≤ epsilon_start ∧
    epsAfter (ops ++ [EpsOp.trainSuccess]) =
      max epsilon_end (epsAfter ops * epsilon_decay) ∧
    epsAfter (ops ++ [EpsOp.trainSuccess]) ≤ epsAfter ops ∧
    (epsAfter (ops ++ [EpsOp.trainSuccess]) < epsAfter ops ↔
      epsilon_end < epsAfter ops) ∧
    epsAfter (ops ++ [EpsOp.trainSkipped]) = epsAfter ops := by
  have hse : epsilon_end ≤ epsilon_start := by norm_num [epsilon_start, epsilon_end]
  obtain ⟨hlo0, hhi0⟩ := epsFoldl_bounds ops h epsilon_start hse
  have hlo : epsilon_end ≤ epsAfter ops := hlo0
  have hhi : epsAfter ops ≤ epsilon_start := hhi0
  have happ : epsAfter (ops ++ [EpsOp.trainSuccess]) =
      max epsilon_end (epsAfter ops * epsilon_decay) := by
    simp [epsAfter, List.foldl_append, applyEpsOp]
  have h0 : (0 : ℚ) ≤ epsAfter ops := le_trans (by norm_num [epsilon_end]) hlo
  have hle : epsAfter (ops ++ [EpsOp.trainSuccess]) ≤ epsAfter ops := by
    rw [happ]
    exact max_le hlo (mul_le_of_le_one_right h0 (by norm_num [epsilon_decay]))
  refine ⟨rfl, hlo, hhi, happ, hle, ?_, ?_⟩
  · constructor
    · intro hlt
      rcases lt_or_eq_of_le hlo with h' | h'
      · exact h'
      · exfalso
        rw [happ, ← h'] at hlt
        exact absurd (le_max_left epsilon_end (epsilon_end * epsilon_decay))
          (not_le_of_lt hlt)
    · intro hgt
      rw [happ]
      refine max_lt hgt ?_
      have hpos : (0 : ℚ) < epsAfter ops :=
        lt_of_le_of_lt (by norm_num [epsilon_end]) hgt
      exact mul_lt_of_lt_one_right hpos (by norm_num [epsilon_decay])
  · simp [epsAfter, List.foldl_append, applyEpsOp]

/-- C6 witness: the amended theorem at the empty operation list. -/
theorem C6_epsilon_schedule_witness :
    epsilon_start = 1 ∧
    epsilon_end ≤ epsAfter [] ∧
    epsAfter [] ≤ epsilon_start ∧
    epsAfter ([] ++ [EpsOp.trainSuccess]) =
      max epsilon_end (epsAfter [] * epsilon_decay) ∧
    epsAfter ([] ++ [EpsOp.trainSuccess]) ≤ epsAfter [] ∧
    (epsAfter ([] ++ [EpsOp.trainSuccess]) < epsAfter [] ↔
      epsilon_end < epsAfter []) ∧
    epsAfter ([] ++ [EpsOp.trainSkipped]) = epsAfter [] :=
  C6_epsilon_schedule [] (by simp)

/-- The iterations loop of /train never touches the target network. -/
theorem trainLoop_targetV (batch : Nat) :
    ∀ (n : Nat) (s : AgentNet), (trainLoop batch n s).targetV = s.targetV := by
  intro n
  induction n with
  | zero => intro s; rfl
  | succ n ih =>
    intro s
    show (trainLoop batch n (trainStepNet batch s)).targetV = s.targetV
    rw [ih]
    unfold trainStepNet
    split <;> rfl

/-- The iterations loop of /train performs no target sync. -/
theorem trainLoop_syncCount (batch : Nat) :
    ∀ (n : Nat) (s : AgentNet), (trainLoop batch n s).syncCount = s.syncCount := by
  intro n
  induction n with
  | zero => intro s; rfl
  | succ n ih =>
    intro s
    show (trainLoop batch n (trainStepNet batch s)).syncCount = s.syncCount
    rw [ih]
    unfold trainStepNet
    split <;> rfl

set_option maxRecDepth 4000 in
/-- C7 counterexample: one /train call with iterations=101 from a
fresh agent with a full buffer completes 101 training steps (passing
the 100-step mark) yet performs no target sync, leaving the target
parameters different from the policy parameters. -/
theorem C7_counterexample :
    (train_agent agent0 64 101).steps = 101 ∧
    (train_agent agent0 64 101).syncCount = 0 ∧
    (train_agent agent0 64 101).targetV ≠ (train_agent agent0 64 101).policyV := by
  refine ⟨?_, ?_, ?_⟩ <;> decide

/-- C7 (amended): when a /train call ends with the step counter a
multiple of 100 it copies the policy weights into the target, and
whenever a call performs a sync the target parameters equal the
policy parameters immediately afterwards; a multiple of 100 crossed
mid-call triggers no sync. -/
theorem C7_target_sync (s : AgentNet) (batch iters : Nat) :
    ((train_agent s batch iters).steps % 100 = 0 →
      (train_agent s batch iters).targetV = (train_agent s batch iters).policyV) ∧
    ((train_agent s batch iters).syncCount ≠ s.syncCount →
      (train_agent s batch iters).targetV = (train_agent s batch iters).policyV) := by
  by_cases h : (trainLoop batch iters s).steps % 100 = 0
  · have heq : train_agent s batch iters =
        update_target_network (trainLoop batch iters s) := by
      unfold train_agent
      rw [if_pos h]
    rw [heq]
    exact ⟨fun _ => rfl, fun _ => rfl⟩
  · have heq : train_agent s batch iters = trainLoop batch iters s := by
      unfold train_agent
      rw [if_neg h]
    rw [heq]
    exact ⟨fun h0 => absurd h0 h,
      fun hne => absurd (trainLoop_syncCount batch iters s) hne⟩

/-- C7 witness: the amended theorem at a fresh agent and an empty
training call, whose final step count 0 is a multiple of 100. -/
theorem C7_target_sync_witness :
    (train_agent agent0 64 0).targetV = (train_agent agent0 64 0).policyV :=
  (C7_target_sync agent0 64 0).1 (by decide)

/-- Enumerating from n and rendering each pair "[i+1] text" is the
rank-ordered numbering starting at n+1. -/
theorem enumFrom_map_numbered (n : Nat) (cs : List String) :
    (List.enumFrom n cs).map (fun p => "[" ++ toString (p.1 + 1) ++ "] " ++ p.2) =
      numberedFrom (n + 1) cs := by
  induction cs generalizing n with
  | nil => rfl
  | cons c rest ih => simp [List.enumFrom, numberedFrom, ih]

/-- C8: build_augmented_prompt is deterministic and equals the spec's
composition — bare query on zero contexts, otherwise the fixed
preamble, the contexts as "[i] text" numbered from 1 in rank order,
Question: with the original query, and Answer:. -/
theorem C8_prompt_composition (query : String) (contexts : List String) :
    build_augmented_prompt query contexts = prompt_spec query contexts := by
  cases contexts with
  | nil => rfl
  | cons c rest =>
    have he : (c :: rest).enum = List.enumFrom 0 (c :: rest) := rfl
    simp [build_augmented_prompt, prompt_spec, he, enumFrom_map_numbered, numberedFrom]

/-- A field is Python-truthy exactly when it is present and nonempty. -/
theorem truthyStr_iff (o : Option String) : truthyStr o = true ↔ notBlank o := by
  cases o with
  | none => simp [truthyStr, notBlank]
  | some s =>
    constructor
    · intro h
      refine ⟨s, rfl, fun hs => ?_⟩
      subst hs
      exact absurd h (by decide)
    · rintro ⟨t, ht, hne⟩
      obtain rfl : s = t := by injection ht
      cases hie : s.isEmpty with
      | false => simp [truthyStr, hie]
      | true => exact absurd ((String.isEmpty_iff s).mp hie) hne

/-- Python's `or` on optional strings is truthy iff either side is. -/
theorem pyOr_truthy (a b : Option String) :
    truthyStr (pyOr a b) = (truthyStr a || truthyStr b) := by
  unfold pyOr
  cases h : truthyStr a <;> simp [h]

/-- C10 counterexample: a job with job_id "x" and an augmented_prompt
field present but empty is dropped by the generator worker, although
neither the job_id nor all three prompt fields are missing: the
claim's drop condition is false while the code drops the job. -/
theorem C10_counterexample :
    worker_drop ⟨some "x", some "", none, none⟩ = true ∧
    ¬ dropClaim ⟨some "x", some "", none, none⟩ := by
  constructor
  · rfl
  · simp [dropClaim]

/-- C10 (amended): the generator worker produces a completion record
for a job exactly when the job_id is present and nonempty and at
least one of augmented_prompt, prompt, text is present and nonempty
(a present-but-empty field counts as missing); in particular a job
without augmented_prompt but with a nonempty prompt or text is still
sent to the LLM and receives a completion record. -/
theorem C10_drop_condition (j : LlmJob) (llm : String → Bool × String) :
    (process_llm_job j llm).isSome = true ↔
      (notBlank j.job_id ∧
        (notBlank j.augmented_prompt ∨ notBlank j.prompt ∨ notBlank j.text)) := by
  rw [← truthyStr_iff j.job_id, ← truthyStr_iff j.augmented_prompt,
    ← truthyStr_iff j.prompt, ← truthyStr_iff j.text]
  have key : worker_drop j = false ↔
      (truthyStr j.job_id = true ∧
        (truthyStr j.augmented_prompt = true ∨ truthyStr j.prompt = true ∨
          truthyStr j.text = true)) := by
    unfold worker_drop promptOf
    rw [pyOr_truthy, pyOr_truthy]
    cases truthyStr j.job_id <;> cases truthyStr j.augmented_prompt <;>
      cases truthyStr j.prompt <;> cases truthyStr j.text <;> simp
  cases hd : worker_drop j with
  | false =>
    simpa [process_llm_job, hd] using key.mp hd
  | true =>
    simp only [process_llm_job, hd, if_true, Option.isSome_none]
    constructor
    · intro hfalse
      exact absurd hfalse (by simp)
    · intro hr
      have h2 := key.mpr hr
      rw [hd] at h2
      exact Bool.noConfusion h2
